import Mathlib

/-!
Shallow embedding of the `nostd-vault` Solana program (src/lib.rs and
src/instructions.rs).

Modelling choices:
* A `Pubkey` (32-byte address) is abstracted as a `Nat`; the program's own
  id `crate::ID` becomes the arbitrary fixed constant `crateID`.  All the
  program ever does with keys is compare them for equality, so any type with
  decidable equality is faithful.
* Lamport balances are `u64` in the source; they are modelled as `Nat`, with
  the `2^64` bound made explicit exactly where the source uses checked
  arithmetic (`checked_add` / `checked_sub`).
* The host primitives that are outside this repository - the SHA-256 based
  program-address derivation (`find_program_address` /
  `create_program_address`) and the rent schedule
  (`Rent::get()?.minimum_balance`) - are fields of a `HostEnv` record that
  every embedded function takes as a parameter.  The system-program CPIs
  (`CreateAccount`, `Transfer`) and `invoke_signed` are modelled by small
  functions that follow the documented runtime semantics: a CPI signer seed
  list authorizes exactly the address it derives to, `CreateAccount`
  requires the target to be unfunded and the funder to be a signer with
  enough lamports, and `Transfer` requires a funded signer and checks the
  `u64` overflow of the credit.
* An `AccountInfo` becomes the `Account` record below: key, lamport
  balance, data length, owning program and the per-call signer flag - the
  only attributes the program reads.
* Each Rust function that can mutate balances is embedded as a function
  returning `Option ProgramError × Account × Account`: the first component
  is `none` on success (`Ok(())`) and `some e` on `Err(e)`, and the other
  components are the owner and vault accounts as they stand when the
  function returns.  The two `try_borrow_mut_lamports` scopes in
  `Withdraw::process` are disjoint, so the borrow bookkeeping can never
  fail and is not modelled.
-/

/-- Error codes of `pinocchio::program_error::ProgramError` used by the
program or by the modelled host primitives. -/
inductive ProgramError where
  | InvalidInstructionData
  | InvalidAccountData
  | InvalidAccountOwner
  | NotEnoughAccountKeys
  | InsufficientFunds
  | MissingRequiredSignature
  | AccountAlreadyInUse
  | ArithmeticOverflow
deriving DecidableEq, Repr

/-- A seed item passed to the address-derivation primitives: a byte-string
literal, an account key, or a single bump byte. -/
inductive Seed where
  | lit : String → Seed
  | key : Nat → Seed
  | byte : Nat → Seed
deriving DecidableEq, Repr

/-- The attributes of a `pinocchio::account_info::AccountInfo` that the
program reads: address, lamport balance, data length, owning program tag
and the per-call signer flag. -/
structure Account where
  key : Nat
  lamports : Nat
  dataLen : Nat
  owner : Nat
  is_signer : Bool
deriving DecidableEq, Repr

/-- Host-ledger primitives the program calls but does not implement:
the SHA-256 based program-derived-address search, the deterministic
single-seed-list derivation used when checking CPI signer seeds, and the
rent schedule.  `find_program_address` returns the derived address together
with the bump byte it found; `create_program_address` returns `none` when
the seeds derive no valid (off-curve) address.  The program id argument is
omitted because every call site passes `crate::ID`. -/
structure HostEnv where
  find_program_address : List Seed → Nat × Nat
  create_program_address : List Seed → Option Nat
  rent_minimum_balance : Nat → Nat

/-- `crate::ID`, the program's own address
(`BiiPnsjAjAbnCTXsUAuKyt6monTwcJ7zfWeWDYB2k1w7`), abstracted as a fixed
numeric identifier. -/
def crateID : Nat := 4242

/-- `u64::MAX + 1`, the modulus of lamport arithmetic. -/
def u64Mod : Nat := 2 ^ 64

/-- `u64::checked_sub` on balances below `2^64`. -/
def checkedSub (a b : Nat) : Option Nat :=
  if b ≤ a then some (a - b) else none

/-- `u64::checked_add` on balances below `2^64`. -/
def checkedAdd (a b : Nat) : Option Nat :=
  if a + b < u64Mod then some (a + b) else none

/-- `u64::from_le_bytes` on a list of bytes (least significant first). -/
def u64_from_le_bytes (data : List Nat) : Nat :=
  data.foldr (fun b acc => acc * 256 + b % 256) 0

/-- `parse_amount` (src/instructions.rs:42-54): require exactly 8 bytes,
decode little-endian, reject a zero amount. -/
def parse_amount (data : List Nat) : Except ProgramError Nat :=
  if data.length ≠ 8 then
    Except.error ProgramError.InvalidInstructionData
  else
    let amount := u64_from_le_bytes data
    if amount = 0 then Except.error ProgramError.InvalidAccountData
    else Except.ok amount

/-- `derive_vault_pda` (src/instructions.rs:56-58):
`find_program_address(&[b"no-std-vault", owner.key()], &crate::ID)`. -/
def derive_vault_pda (env : HostEnv) (owner : Account) : Nat × Nat :=
  env.find_program_address [Seed.lit "no-std-vault", Seed.key owner.key]

/-- The system program's `CreateAccount` instruction reached through
`invoke_signed` (src/instructions.rs:82-89), with the documented runtime
semantics: the signer seed list must derive exactly the address of the
account being created (that account has no private key, so only the
seed-derived signature can authorize it); the funder must be a signer with
at least `lamports`; the target must not already be funded.  On success the
funder is debited and the new account is funded, sized and tagged. -/
def createAccountCPI (env : HostEnv) (fromAcc toAcc : Account)
    (lamports space ownerTag : Nat) (seeds : List Seed) :
    Except ProgramError (Account × Account) :=
  if env.create_program_address seeds ≠ some toAcc.key then
    Except.error ProgramError.MissingRequiredSignature
  else if fromAcc.is_signer = false then
    Except.error ProgramError.MissingRequiredSignature
  else if toAcc.lamports ≠ 0 then
    Except.error ProgramError.AccountAlreadyInUse
  else if fromAcc.lamports < lamports then
    Except.error ProgramError.InsufficientFunds
  else
    Except.ok
      ({ fromAcc with lamports := fromAcc.lamports - lamports },
       { toAcc with lamports := lamports, dataLen := space, owner := ownerTag })

/-- The system program's `Transfer` instruction (src/instructions.rs:119-124):
the funder must be a signer with at least `lamports`; the credit must not
overflow `u64`. -/
def transferCPI (fromAcc toAcc : Account) (lamports : Nat) :
    Except ProgramError (Account × Account) :=
  if fromAcc.is_signer = false then
    Except.error ProgramError.MissingRequiredSignature
  else if fromAcc.lamports < lamports then
    Except.error ProgramError.InsufficientFunds
  else if toAcc.lamports + lamports ≥ u64Mod then
    Except.error ProgramError.ArithmeticOverflow
  else
    Except.ok
      ({ fromAcc with lamports := fromAcc.lamports - lamports },
       { toAcc with lamports := toAcc.lamports + lamports })

/-- `check_vault_existence` (src/instructions.rs:60-100).  Note two facts
of the source kept faithfully here: the bump comes from the
`b"no-std-vault"` derivation while the CPI signer seeds use the different
literal `b"vault"`, and the derived address `_pda` is discarded without
being compared to the supplied vault account. -/
def check_vault_existence (env : HostEnv) (owner vault : Account) :
    Option ProgramError × Account × Account :=
  if owner.is_signer = false then
    (some ProgramError.InvalidAccountOwner, owner, vault)
  else if vault.lamports = 0 then
    let bump := (derive_vault_pda env owner).2
    let seeds := [Seed.lit "vault", Seed.key owner.key, Seed.byte bump]
    let data_len := 8 + 8
    let required_lamports := env.rent_minimum_balance data_len
    match createAccountCPI env owner vault required_lamports data_len crateID seeds with
    | Except.error e => (some e, owner, vault)
    | Except.ok (owner1, vault1) => (none, owner1, vault1)
  else
    if vault.owner ≠ crateID then
      (some ProgramError.InvalidAccountOwner, owner, vault)
    else
      (none, owner, vault)

/-- `Deposit::process` (src/instructions.rs:110-129): existence check /
bootstrap, then a system `Transfer` of `amount` from owner to vault. -/
def depositProcess (env : HostEnv) (owner vault : Account) (amount : Nat) :
    Option ProgramError × Account × Account :=
  match check_vault_existence env owner vault with
  | (some e, o, v) => (some e, o, v)
  | (none, o, v) =>
    match transferCPI o v amount with
    | Except.error e => (some e, o, v)
    | Except.ok (o1, v1) => (none, o1, v1)

/-- The debit step of `Withdraw::process` (src/instructions.rs:190-194):
`checked_sub` on the vault balance, mapping underflow to
`InsufficientFunds`. -/
def withdrawDebit (bal amount : Nat) : Except ProgramError Nat :=
  match checkedSub bal amount with
  | none => Except.error ProgramError.InsufficientFunds
  | some n => Except.ok n

/-- The credit step of `Withdraw::process` (src/instructions.rs:197-202):
`checked_add`, mapping overflow to `InsufficientFunds`.  In the source this
step borrows the VAULT's lamport cell again (the binding is merely named
`owner_lamports`), so the amount is added back to the vault. -/
def withdrawCredit (bal amount : Nat) : Except ProgramError Nat :=
  match checkedAdd bal amount with
  | none => Except.error ProgramError.InsufficientFunds
  | some n => Except.ok n

/-- `Withdraw::process` (src/instructions.rs:162-207): signer check,
owning-program check, canonical-address check, reserve guard, then the
debit and credit steps.  The credit step operates on the vault's balance,
exactly as the source does. -/
def withdrawProcess (env : HostEnv) (owner vault : Account) :
    Option ProgramError × Account × Account :=
  if owner.is_signer = false then
    (some ProgramError.InvalidAccountOwner, owner, vault)
  else if vault.owner ≠ crateID then
    (some ProgramError.InvalidAccountOwner, owner, vault)
  else
    let expected_vault_pda := (derive_vault_pda env owner).1
    if vault.key ≠ expected_vault_pda then
      (some ProgramError.InvalidAccountData, owner, vault)
    else
      let data_len := vault.dataLen
      let minimum_bal := env.rent_minimum_balance data_len
      let current_balance := vault.lamports
      if current_balance ≤ minimum_bal then
        (some ProgramError.InsufficientFunds, owner, vault)
      else
        let amount := current_balance - minimum_bal
        match withdrawDebit current_balance amount with
        | Except.error e => (some e, owner, vault)
        | Except.ok newVaultBal =>
          let vault1 := { vault with lamports := newVaultBal }
          match withdrawCredit vault1.lamports amount with
          | Except.error e => (some e, owner, vault1)
          | Except.ok newBal => (none, owner, { vault1 with lamports := newBal })

/-- `Deposit::try_from` (src/instructions.rs:132-152) followed by
`Deposit::process`: require at least two accounts, parse the amount, run
the deposit.  The result pairs the call's outcome with the updated account
list (only the accounts at indices 0 and 1 are ever touched). -/
def runDeposit (env : HostEnv) (data : List Nat) (accounts : List Account) :
    Option ProgramError × List Account :=
  match accounts with
  | o :: v :: rest =>
    match parse_amount data with
    | Except.error e => (some e, o :: v :: rest)
    | Except.ok amount =>
      match depositProcess env o v amount with
      | (r, o1, v1) => (r, o1 :: v1 :: rest)
  | _ => (some ProgramError.NotEnoughAccountKeys, accounts)

/-- `Withdraw::try_from` (src/instructions.rs:210-221) followed by
`Withdraw::process`: require at least two accounts, run the withdrawal. -/
def runWithdraw (env : HostEnv) (accounts : List Account) :
    Option ProgramError × List Account :=
  match accounts with
  | o :: v :: rest =>
    match withdrawProcess env o v with
    | (r, o1, v1) => (r, o1 :: v1 :: rest)
  | _ => (some ProgramError.NotEnoughAccountKeys, accounts)

/-- `process_instruction` (src/lib.rs:17-27): split off the first byte,
route `0` to Deposit with the remaining bytes as payload, `1` to Withdraw,
and fail `InvalidInstructionData` on an empty payload or any other
opcode. -/
def process_instruction (env : HostEnv) (accounts : List Account)
    (data : List Nat) : Option ProgramError × List Account :=
  match data with
  | 0 :: rest => runDeposit env rest accounts
  | 1 :: _ => runWithdraw env accounts
  | _ => (some ProgramError.InvalidInstructionData, accounts)

/-! ## Concrete fixtures used by the evaluation theorems and witnesses -/

/-- A concrete host environment: the canonical derivation
`["no-std-vault", owner 5]` yields address 100 with bump 255, while the
seed list the program actually signs with, `["vault", owner 5, bump 255]`,
derives the different address 200 - reflecting that the SHA-256 hashes of
differently-tagged seed lists differ.  Rent for the 16-byte vault layout
is 890. -/
def testEnv : HostEnv where
  find_program_address := fun seeds =>
    if seeds = [Seed.lit "no-std-vault", Seed.key 5] then (100, 255) else (7, 0)
  create_program_address := fun seeds =>
    if seeds = [Seed.lit "vault", Seed.key 5, Seed.byte 255] then some 200 else some 300
  rent_minimum_balance := fun n => if n = 16 then 890 else n * 50

/-- A signing owner with 2000 lamports. -/
def owner0 : Account :=
  { key := 5, lamports := 2000, dataLen := 0, owner := 0, is_signer := true }

/-- The same owner without the signer flag. -/
def ownerNS : Account :=
  { key := 5, lamports := 2000, dataLen := 0, owner := 0, is_signer := false }

/-- A live vault at the canonical derived address 100, owned by the
program, 16 bytes of data, balance 1390 (minimum reserve 890 + excess 500). -/
def vaultGood : Account :=
  { key := 100, lamports := 1390, dataLen := 16, owner := crateID, is_signer := false }

/-- An unfunded account at the canonical derived address 100. -/
def vaultCanonical : Account :=
  { key := 100, lamports := 0, dataLen := 0, owner := 0, is_signer := false }

/-- An unfunded account at address 200, the address the program's CPI
signer seeds actually derive to - not the canonical derived address. -/
def vaultOffTag : Account :=
  { key := 200, lamports := 0, dataLen := 0, owner := 0, is_signer := false }

/-- A live vault owned by the program whose address 999 is not the
canonical derived address. -/
def vaultWrongKey : Account :=
  { key := 999, lamports := 1390, dataLen := 16, owner := crateID, is_signer := false }

/-- A live vault at the canonical address holding exactly the minimum
reserve. -/
def vaultAtMin : Account :=
  { key := 100, lamports := 890, dataLen := 16, owner := crateID, is_signer := false }

/-- The little-endian 8-byte encoding of 500. -/
def data500 : List Nat := [244, 1, 0, 0, 0, 0, 0, 0]

/-- The 8-byte encoding of 0. -/
def zeros8 : List Nat := [0, 0, 0, 0, 0, 0, 0, 0]

/-! ## Claims -/

/-- C1: the claim says a Withdraw passing all guards moves exactly
`b - minimum_reserve` out of the vault to the owner, leaving the vault at
exactly the minimum reserve.  Evaluating the embedded `Withdraw::process`
at a concrete passing input (balance 1390, reserve 890) shows the call
succeeds but the vault still holds 1390 and the owner is unchanged: the
credit step (src/instructions.rs:198) borrows the vault's balance cell
again, so the withdrawn amount is added straight back to the vault. -/
theorem c1_code_eval :
    withdrawProcess testEnv owner0 vaultGood = (none, owner0, vaultGood)
    ∧ testEnv.rent_minimum_balance vaultGood.dataLen = 890
    ∧ vaultGood.lamports = 1390 := by
  decide

/-- C2: the claim says a first Deposit creates the vault at the canonical
derived address via the derived-address proof.  In the embedding, 100 is
the canonical derived address for owner 5, yet depositing to an unfunded
account at 100 fails `MissingRequiredSignature`: the CPI signer seeds use
the literal "vault" with the bump searched for "no-std-vault", so they
derive 200, not 100.  Depositing to address 200 instead succeeds - the
account is created away from the canonical address, which `Withdraw`
would in turn reject. -/
theorem c2_code_eval :
    (derive_vault_pda testEnv owner0).1 = vaultCanonical.key
    ∧ depositProcess testEnv owner0 vaultCanonical 500 =
        (some ProgramError.MissingRequiredSignature, owner0, vaultCanonical)
    ∧ (depositProcess testEnv owner0 vaultOffTag 500).1 = none
    ∧ vaultOffTag.key ≠ (derive_vault_pda testEnv owner0).1 := by
  decide

/-- C3 counterexample: a Deposit with a non-signing owner at index 0 but a
malformed (empty) payload fails `InvalidInstructionData`, not
`InvalidAccountOwner`: `Deposit::try_from` parses the amount before
`process` ever checks the signer flag, so the claimed error is not produced
"regardless of the values of all other inputs". -/
theorem c3_counterexample :
    (process_instruction testEnv [ownerNS, vaultGood] [0]).1 =
      some ProgramError.InvalidInstructionData
    ∧ (process_instruction testEnv [ownerNS, vaultGood] [0]).1 ≠
      some ProgramError.InvalidAccountOwner := by
  decide

/-- C3 amended: for a Deposit whose other inputs are valid (at least two
accounts, payload parsing succeeds) and for a Withdraw with at least two
accounts, a non-signing owner at index 0 makes the call fail
`InvalidAccountOwner` with every balance unchanged. -/
theorem c3_amended_thm (env : HostEnv) (o v : Account) (rest : List Account)
    (data : List Nat) (amount : Nat)
    (hns : o.is_signer = false) (hd : parse_amount data = Except.ok amount) :
    runDeposit env data (o :: v :: rest) =
      (some ProgramError.InvalidAccountOwner, o :: v :: rest)
    ∧ runWithdraw env (o :: v :: rest) =
      (some ProgramError.InvalidAccountOwner, o :: v :: rest) := by
  constructor
  · simp [runDeposit, hd, depositProcess, check_vault_existence, hns]
  · simp [runWithdraw, withdrawProcess, hns]

/-- C3 witness: the amended theorem at the concrete non-signing owner, a
well-formed payload of amount 500 and two accounts. -/
theorem c3_witness :
    runDeposit testEnv data500 [ownerNS, vaultGood] =
      (some ProgramError.InvalidAccountOwner, [ownerNS, vaultGood])
    ∧ runWithdraw testEnv [ownerNS, vaultGood] =
      (some ProgramError.InvalidAccountOwner, [ownerNS, vaultGood]) :=
  c3_amended_thm testEnv ownerNS vaultGood [] data500 500 (by decide) (by rfl)

/-- C4: the dispatcher routes a first byte of 0 to Deposit with the
remaining bytes as payload, a first byte of 1 to Withdraw, and fails
`InvalidInstructionData` on an empty payload or any other first byte; on
the Deposit path an 8-byte payload decoding to a nonzero value is parsed
as the unsigned 64-bit little-endian amount. -/
theorem c4_thm (env : HostEnv) (accounts : List Account) :
    (∀ rest, process_instruction env accounts (0 :: rest) = runDeposit env rest accounts)
    ∧ (∀ rest, process_instruction env accounts (1 :: rest) = runWithdraw env accounts)
    ∧ process_instruction env accounts [] =
        (some ProgramError.InvalidInstructionData, accounts)
    ∧ (∀ b rest, 2 ≤ b → process_instruction env accounts (b :: rest) =
        (some ProgramError.InvalidInstructionData, accounts))
    ∧ (∀ data : List Nat, data.length = 8 → u64_from_le_bytes data ≠ 0 →
        parse_amount data = Except.ok (u64_from_le_bytes data)) := by
  refine ⟨fun rest => rfl, fun rest => rfl, rfl, ?_, ?_⟩
  · intro b rest hb
    match b, hb with
    | b + 2, _ => rfl
  · intro data hlen hnz
    simp [parse_amount, hlen, hnz]

/-- C4 witness: the dispatcher at the unknown opcode 5 with no accounts,
and the parser at the concrete little-endian encoding of 500. -/
theorem c4_witness :
    process_instruction testEnv [] [5] =
      (some ProgramError.InvalidInstructionData, ([] : List Account))
    ∧ parse_amount data500 = Except.ok 500 := by
  refine ⟨(c4_thm testEnv []).2.2.2.1 5 [] (by decide), ?_⟩
  have h := (c4_thm testEnv []).2.2.2.2 data500 (by decide) (by decide)
  simpa [show u64_from_le_bytes data500 = 500 from by decide] using h

/-- C5: a Withdraw by a signing owner whose vault account is owned by the
program but sits at an address different from the canonical derived
address fails `InvalidAccountData`, whatever its balance, with both
accounts unchanged. -/
theorem c5_thm (env : HostEnv) (o v : Account)
    (hs : o.is_signer = true) (hown : v.owner = crateID)
    (hkey : v.key ≠ (derive_vault_pda env o).1) :
    withdrawProcess env o v = (some ProgramError.InvalidAccountData, o, v) := by
  simp [withdrawProcess, hs, hown, hkey]

/-- C5 witness: the concrete program-owned vault at the wrong address 999
(canonical is 100). -/
theorem c5_witness :
    withdrawProcess testEnv owner0 vaultWrongKey =
      (some ProgramError.InvalidAccountData, owner0, vaultWrongKey) :=
  c5_thm testEnv owner0 vaultWrongKey (by decide) (by decide) (by decide)

/-- C6: a Withdraw that passes the signer, ownership-tag and address
checks but whose vault balance is at most the minimum reserve for its data
length fails `InsufficientFunds` with both accounts unchanged. -/
theorem c6_thm (env : HostEnv) (o v : Account)
    (hs : o.is_signer = true) (hown : v.owner = crateID)
    (hkey : v.key = (derive_vault_pda env o).1)
    (hbal : v.lamports ≤ env.rent_minimum_balance v.dataLen) :
    withdrawProcess env o v = (some ProgramError.InsufficientFunds, o, v) := by
  simp [withdrawProcess, hs, hown, hkey, hbal]

/-- C6 witness: the concrete vault at the canonical address holding
exactly the minimum reserve 890. -/
theorem c6_witness :
    withdrawProcess testEnv owner0 vaultAtMin =
      (some ProgramError.InsufficientFunds, owner0, vaultAtMin) :=
  c6_thm testEnv owner0 vaultAtMin (by decide) (by decide) (by decide) (by decide)

/-- C7 counterexample: a Deposit whose 8-byte payload decodes to 0 but
which supplies no accounts fails `NotEnoughAccountKeys`, not
`InvalidAccountData`: `Deposit::try_from` checks the account count before
parsing the amount. -/
theorem c7_counterexample :
    (runDeposit testEnv zeros8 []).1 = some ProgramError.NotEnoughAccountKeys
    ∧ (runDeposit testEnv zeros8 []).1 ≠ some ProgramError.InvalidAccountData := by
  decide

/-- C7 amended: a Deposit with at least two accounts whose 8-byte payload
decodes to the amount 0 fails `InvalidAccountData` with every balance
unchanged. -/
theorem c7_amended_thm (env : HostEnv) (o v : Account) (rest : List Account)
    (data : List Nat) (hlen : data.length = 8)
    (hzero : u64_from_le_bytes data = 0) :
    runDeposit env data (o :: v :: rest) =
      (some ProgramError.InvalidAccountData, o :: v :: rest) := by
  simp [runDeposit, parse_amount, hlen, hzero]

/-- C7 witness: the amended theorem at the all-zero 8-byte payload and two
accounts. -/
theorem c7_witness :
    runDeposit testEnv zeros8 [owner0, vaultGood] =
      (some ProgramError.InvalidAccountData, [owner0, vaultGood]) :=
  c7_amended_thm testEnv owner0 vaultGood [] zeros8 (by decide) (by decide)

/-- C8 counterexample: a Deposit whose payload after the opcode is empty
(length 0 ≠ 8) but which supplies no accounts fails `NotEnoughAccountKeys`,
not `InvalidInstructionData`: the account-count check runs first. -/
theorem c8_counterexample :
    (runDeposit testEnv [] []).1 = some ProgramError.NotEnoughAccountKeys
    ∧ (runDeposit testEnv [] []).1 ≠ some ProgramError.InvalidInstructionData := by
  decide

/-- C8 amended: a Deposit with at least two accounts whose payload after
the opcode byte does not have length 8 fails `InvalidInstructionData` with
every balance unchanged. -/
theorem c8_amended_thm (env : HostEnv) (o v : Account) (rest : List Account)
    (data : List Nat) (hlen : data.length ≠ 8) :
    runDeposit env data (o :: v :: rest) =
      (some ProgramError.InvalidInstructionData, o :: v :: rest) := by
  simp [runDeposit, parse_amount, hlen]

/-- C8 witness: the amended theorem at the empty payload and two
accounts. -/
theorem c8_witness :
    runDeposit testEnv [] [owner0, vaultGood] =
      (some ProgramError.InvalidInstructionData, [owner0, vaultGood]) :=
  c8_amended_thm testEnv owner0 vaultGood [] [] (by decide)

/-- C9: under the guard of `Withdraw::process` (current balance strictly
above the minimum reserve), the checked subtraction of the withdrawable
amount from the vault balance always succeeds, leaving exactly the
minimum: the `InsufficientFunds` branch of the debit step is
unreachable. -/
theorem c9_thm (current minimum : Nat) (h : minimum < current) :
    withdrawDebit current (current - minimum) = Except.ok minimum := by
  simp [withdrawDebit, checkedSub, Nat.sub_le, Nat.sub_sub_self (Nat.le_of_lt h)]

/-- C9 witness: the debit step at balance 1390 and withdrawable amount 500
over reserve 890. -/
theorem c9_witness : withdrawDebit 1390 (1390 - 890) = Except.ok 890 :=
  c9_thm 1390 890 (by decide)

/-- Helper for C10: the Deposit path over `o :: v :: rest` produces a
result and two updated accounts that do not depend on `rest`, and carries
`rest` through untouched. -/
theorem runDeposit_cons (env : HostEnv) (data : List Nat) (o v : Account) :
    ∃ r o1 v1, ∀ rest : List Account,
      runDeposit env data (o :: v :: rest) = (r, o1 :: v1 :: rest) := by
  rcases hp : parse_amount data with e | amount
  · exact ⟨some e, o, v, fun rest => by simp [runDeposit, hp]⟩
  · rcases hd : depositProcess env o v amount with ⟨r, o1, v1⟩
    exact ⟨r, o1, v1, fun rest => by simp [runDeposit, hp, hd]⟩

/-- Helper for C10: the Withdraw path over `o :: v :: rest` produces a
result and two updated accounts that do not depend on `rest`, and carries
`rest` through untouched. -/
theorem runWithdraw_cons (env : HostEnv) (o v : Account) :
    ∃ r o1 v1, ∀ rest : List Account,
      runWithdraw env (o :: v :: rest) = (r, o1 :: v1 :: rest) := by
  rcases hd : withdrawProcess env o v with ⟨r, o1, v1⟩
  exact ⟨r, o1, v1, fun rest => by simp [runWithdraw, hd]⟩

/-- Helper for C10: with fewer than two accounts every path returns the
account list unchanged. -/
theorem process_short (env : HostEnv) (data : List Nat) (a : List Account)
    (ha : a.length < 2) : (process_instruction env a data).2 = a := by
  match data with
  | [] => rfl
  | 0 :: rest =>
    match a, ha with
    | [], _ => rfl
    | [x], _ => rfl
    | x :: y :: t, ha => simp at ha; omega
  | 1 :: rest =>
    match a, ha with
    | [], _ => rfl
    | [x], _ => rfl
    | x :: y :: t, ha => simp at ha; omega
  | (b + 2) :: rest => rfl

/-- C10: the outcome of any call - returned result, the two accounts the
program can mutate, and the untouched tail - depends only on the payload
and the accounts at indices 0 and 1: two account lists agreeing on their
first two entries yield the same result and the same updated first two
accounts, and the accounts from index 2 on are never mutated. -/
theorem c10_thm (env : HostEnv) (data : List Nat) (a1 a2 : List Account)
    (h : a1.take 2 = a2.take 2) :
    (process_instruction env a1 data).1 = (process_instruction env a2 data).1
    ∧ (process_instruction env a1 data).2.take 2 =
        (process_instruction env a2 data).2.take 2
    ∧ (process_instruction env a1 data).2.drop 2 = a1.drop 2 := by
  match a1, a2, h with
  | [], [], _ =>
    refine ⟨rfl, rfl, ?_⟩
    rw [process_short env data [] (by simp)]
  | [], b :: bs, h => simp at h
  | a :: as, [], h => simp at h
  | [a], [b], h =>
    simp at h
    subst h
    refine ⟨rfl, rfl, ?_⟩
    rw [process_short env data [a] (by simp)]
  | [a], b :: b2 :: bs, h => simp at h
  | a :: a2' :: as, [b], h => simp at h
  | a :: a2' :: as, b :: b2 :: bs, h =>
    simp at h
    obtain ⟨rfl, rfl⟩ := h
    match data with
    | [] => exact ⟨rfl, rfl, rfl⟩
    | 0 :: rest =>
      obtain ⟨r, o1, v1, hall⟩ := runDeposit_cons env rest a a2'
      refine ⟨?_, ?_, ?_⟩ <;> simp [process_instruction, hall]
    | 1 :: rest =>
      obtain ⟨r, o1, v1, hall⟩ := runWithdraw_cons env a a2'
      refine ⟨?_, ?_, ?_⟩ <;> simp [process_instruction, hall]
    | (b + 2) :: rest => exact ⟨rfl, rfl, rfl⟩

/-- C10 witness: a Withdraw over two accounts and the same Withdraw with a
third account appended produce the same result and the same updated first
two accounts, with the tail untouched. -/
theorem c10_witness :
    (process_instruction testEnv [owner0, vaultGood] [1]).1 =
      (process_instruction testEnv [owner0, vaultGood, ownerNS] [1]).1
    ∧ (process_instruction testEnv [owner0, vaultGood] [1]).2.take 2 =
      (process_instruction testEnv [owner0, vaultGood, ownerNS] [1]).2.take 2
    ∧ (process_instruction testEnv [owner0, vaultGood] [1]).2.drop 2 =
      ([owner0, vaultGood] : List Account).drop 2 :=
  c10_thm testEnv [1] [owner0, vaultGood] [owner0, vaultGood, ownerNS] (by decide)
